import Mathlib

/-!
Verification of the FTB rules engine (src/app.py, "Enhanced FTB Calculator"
variant, lines 2371-2533, plus the partnered Part-B variant at lines 3120-3137).

Money amounts are modelled as exact rationals; `round2` models Python's
`round(x, 2)` (round to the nearest cent; ties never arise at the inputs used
in the concrete statements below).
-/

namespace FTB

/-- Rounding to two decimal places, modelling Python's `round(x, 2)`. -/
def round2 (q : ℚ) : ℚ := ((round (q * 100) : ℤ) : ℚ) / 100

/-- `pf_to_annual` from src/app.py:2412 — annualise a fortnightly rate. -/
def pf_to_annual (pf : ℚ) : ℚ := round2 (pf * 26)

/- The `RATES` dictionary from src/app.py:2371-2392 (2024-25 schedule). -/
namespace RATES

def ftbA_max_pf_0_12 : ℚ := 222.04
def ftbA_max_pf_13_15 : ℚ := 288.82
def ftbA_max_pf_16_19 : ℚ := 288.82
def ftbA_base_pf_0_12 : ℚ := 71.26
def ftbA_base_pf_13_plus : ℚ := 71.26
def ftbA_supplement : ℚ := 916.15
def ftbA_lower_ifa : ℚ := 65189
def ftbA_higher_ifa : ℚ := 115997
def ftbA_taper1 : ℚ := 0.20
def ftbA_taper2 : ℚ := 0.30
def ftbA_supplement_income_limit : ℚ := 80000
def ftbB_max_pf_under_5 : ℚ := 188.86
def ftbB_max_pf_5_to_18 : ℚ := 131.74
def ftbB_energy_pf_under_5 : ℚ := 2.80
def ftbB_energy_pf_5_to_18 : ℚ := 1.96
def ftbB_supplement : ℚ := 448.95
def ftbB_secondary_free_area : ℚ := 6789
def ftbB_nil_secondary_under_5 : ℚ := 33653
def ftbB_nil_secondary_5_to_12 : ℚ := 26207
def ftbB_primary_limit : ℚ := 117194
def ftbB_taper : ℚ := 0.20
def compliance_penalty_pf : ℚ := 34.44

end RATES

/-- The `Child` dataclass from src/app.py:2397-2402. -/
structure Child where
  age : ℕ
  immunised : Bool := true
  healthy_start : Bool := true
  maintenance_ok : Bool := true
deriving DecidableEq

/-- The `Family` dataclass from src/app.py:2404-2410. -/
structure Family where
  partnered : Bool
  primary_income : ℚ
  secondary_income : ℚ := 0
  children : List Child := []
  on_income_support : Bool := false
deriving DecidableEq

/-- The dict returned by `calc_ftb_part_a` (src/app.py:2473). -/
structure ResultA where
  pf : ℚ
  annual : ℚ
  supp : ℚ
  annual_total : ℚ
deriving DecidableEq

/-- The dict returned by `calc_ftb_part_b` (src/app.py:2502-2508). -/
structure ResultB where
  pf : ℚ
  annual : ℚ
  supp : ℚ
  energy : ℚ
  annual_total : ℚ
deriving DecidableEq

/-- The dict returned by `find_ftb_a_cutoff` (src/app.py:2529-2533). -/
structure CutoffA where
  supplement_cutoff : ℚ
  taper_start : ℚ
  zero_payment : ℚ
deriving DecidableEq

/-- `child_max_rate_pf` from src/app.py:2415-2420. -/
def child_max_rate_pf (c : Child) : ℚ :=
  if c.age ≤ 12 then RATES.ftbA_max_pf_0_12
  else if c.age ≤ 15 then RATES.ftbA_max_pf_13_15
  else RATES.ftbA_max_pf_16_19

/-- `child_base_rate_pf` from src/app.py:2422-2423. -/
def child_base_rate_pf (c : Child) : ℚ :=
  if c.age ≤ 12 then RATES.ftbA_base_pf_0_12 else RATES.ftbA_base_pf_13_plus

/-- `child_penalties_pf` from src/app.py:2425-2431. -/
def child_penalties_pf (c : Child) : ℚ :=
  (if c.immunised = false then RATES.compliance_penalty_pf else 0) +
  (if 4 ≤ c.age ∧ c.age ≤ 5 ∧ c.healthy_start = false then RATES.compliance_penalty_pf else 0)

/-- The maintenance-action cap inside `calc_ftb_part_a`'s loop (src/app.py:2443-2444):
`if not ch.maintenance_ok: max_pf = min(max_pf, base_pf)`. -/
def child_capped_max_pf (c : Child) : ℚ :=
  if c.maintenance_ok = false then min (child_max_rate_pf c) (child_base_rate_pf c)
  else child_max_rate_pf c

/-- Per-child adjusted maximum rate (src/app.py:2446): `max_pf = max(max_pf - pen, 0)`. -/
def child_adj_max_pf (c : Child) : ℚ :=
  max (child_capped_max_pf c - child_penalties_pf c) 0

/-- Per-child adjusted base rate (src/app.py:2447): `base_pf = max(base_pf - pen, 0)`. -/
def child_adj_base_pf (c : Child) : ℚ :=
  max (child_base_rate_pf c - child_penalties_pf c) 0

/-- `total_max_pf` accumulated by the loop in src/app.py:2440-2449. -/
def ftbA_total_max_pf (children : List Child) : ℚ :=
  (children.map child_adj_max_pf).sum

/-- `total_base_pf` accumulated by the loop in src/app.py:2440-2449; the same
expression is the Method-2 `base_total_pf` of src/app.py:2464. -/
def ftbA_total_base_pf (children : List Child) : ℚ :=
  (children.map child_adj_base_pf).sum

/-- `ati = fam.primary_income + fam.secondary_income` (src/app.py:2451). -/
def family_ati (fam : Family) : ℚ := fam.primary_income + fam.secondary_income

/-- Method 1 of `calc_ftb_part_a` (src/app.py:2452-2461), as a function of the
income-support flag, the two loop totals and the adjusted taxable income. -/
def ftbA_m1_core (support : Bool) (tm tb ati : ℚ) : ℚ :=
  if support = true then tm
  else if ati ≤ RATES.ftbA_lower_ifa then tm
  else if ati ≤ RATES.ftbA_higher_ifa then
    max (tm - (ati - RATES.ftbA_lower_ifa) * RATES.ftbA_taper1 / 26) tb
  else
    max (tb - (ati - RATES.ftbA_higher_ifa) * RATES.ftbA_taper2 / 26) 0

/-- Method 2 of `calc_ftb_part_a` (src/app.py:2463-2468). -/
def ftbA_m2_core (support : Bool) (bt ati : ℚ) : ℚ :=
  if support = true ∨ ati ≤ RATES.ftbA_higher_ifa then bt
  else max (bt - (ati - RATES.ftbA_higher_ifa) * RATES.ftbA_taper2 / 26) 0

/-- `m1_pf` for a family. -/
def ftbA_m1_pf (fam : Family) : ℚ :=
  ftbA_m1_core fam.on_income_support (ftbA_total_max_pf fam.children)
    (ftbA_total_base_pf fam.children) (family_ati fam)

/-- `m2_pf` for a family. -/
def ftbA_m2_pf (fam : Family) : ℚ :=
  ftbA_m2_core fam.on_income_support (ftbA_total_base_pf fam.children) (family_ati fam)

/-- `best_pf = max(m1_pf, m2_pf)` (src/app.py:2470). -/
def ftbA_best_pf (fam : Family) : ℚ := max (ftbA_m1_pf fam) (ftbA_m2_pf fam)

/-- `calc_ftb_part_a` from src/app.py:2437-2473. -/
def calc_ftb_part_a (fam : Family) : ResultA :=
  let best_pf := ftbA_best_pf fam
  let annual_core := pf_to_annual best_pf
  let supp :=
    if 0 < best_pf ∧ (fam.on_income_support = true ∨
        family_ati fam ≤ RATES.ftbA_supplement_income_limit)
    then RATES.ftbA_supplement else 0
  { pf := round2 best_pf
    annual := annual_core
    supp := supp
    annual_total := round2 (annual_core + supp) }

/-- `youngest = min(ch.age for ch in fam.children)` (src/app.py:2480);
0 on the empty list, which the callers never reach. -/
def youngestAge : List Child → ℕ
  | [] => 0
  | c :: cs => cs.foldl (fun a ch => min a ch.age) c.age

/-- `std_pf` of `calc_ftb_part_b` (src/app.py:2481). -/
def ftbB_std_pf (children : List Child) : ℚ :=
  if youngestAge children < 5 then RATES.ftbB_max_pf_under_5 else RATES.ftbB_max_pf_5_to_18

/-- `energy_pf` of `calc_ftb_part_b` (src/app.py:2482). -/
def ftbB_energy_pf (children : List Child) : ℚ :=
  if youngestAge children < 5 then RATES.ftbB_energy_pf_under_5 else RATES.ftbB_energy_pf_5_to_18

/-- The secondary income test of `calc_ftb_part_b` (src/app.py:2485-2489). -/
def ftbB_secondary_reduction (si : ℚ) : ℚ :=
  if si ≤ RATES.ftbB_secondary_free_area then 0
  else (si - RATES.ftbB_secondary_free_area) * RATES.ftbB_taper / 26

/-- `base_pf` of `calc_ftb_part_b` after the secondary and primary income tests
(src/app.py:2492-2496). -/
def ftbB_base_pf (fam : Family) : ℚ :=
  let b := max (ftbB_std_pf fam.children - ftbB_secondary_reduction fam.secondary_income) 0
  if RATES.ftbB_primary_limit < fam.primary_income then 0 else b

/-- `calc_ftb_part_b` from src/app.py:2475-2508 (this variant applies the same
secondary taper and primary ceiling to every family and never reads `partnered`). -/
def calc_ftb_part_b (fam : Family) (include_es : Bool := false) : ResultB :=
  if fam.children = [] then ⟨0, 0, 0, 0, 0⟩
  else
    let base_pf := ftbB_base_pf fam
    let annual_core := pf_to_annual base_pf
    let energy_annual :=
      if include_es = true ∧ 0 < base_pf then pf_to_annual (ftbB_energy_pf fam.children) else 0
    let supp := if 0 < base_pf then RATES.ftbB_supplement else 0
    { pf := round2 base_pf
      annual := annual_core
      supp := supp
      energy := energy_annual
      annual_total := round2 (annual_core + supp + energy_annual) }

/-- Modelled from the spec: the partnered branch of the `calc_ftb_part_b`
variant at src/app.py:3120-3137 is truncated in the source at
`if primary>rates["primary` (line 3137).  The visible part identifies the
higher earner as primary and the lower as secondary (src/app.py:3135-3136)
and begins the primary-ceiling check; the remainder follows spec §4.3 step 3:
above the ceiling the rate is zero, otherwise the standard rate is reduced by
`(secondary - free area) * taper / 26` above the secondary free area, floored
at zero, and a result below one cent is treated as exactly zero. -/
def ftbB_partnered_pf (pi si std : ℚ) : ℚ :=
  let primary := max pi si
  let secondary := min pi si
  if RATES.ftbB_primary_limit < primary then 0
  else
    let red :=
      if secondary ≤ RATES.ftbB_secondary_free_area then 0
      else (secondary - RATES.ftbB_secondary_free_area) * RATES.ftbB_taper / 26
    let b := max (std - red) 0
    if b < 0.01 then 0 else b

/-- The `calc_ftb_part_b` variant at src/app.py:3120-3137: empty-children
guard, youngest-child banding and the single/partnered branching (including
`if youngest>=13: base_pf=0.0`) are from the source; the truncated tail of the
partnered branch is `ftbB_partnered_pf`, and the closing annualisation /
supplement / energy lines (cut off with it) follow spec §4.3 steps 4-5 exactly
as in the sibling variant at src/app.py:2498-2508. -/
def calc_ftb_part_b_v3120 (fam : Family) (include_es : Bool := false) : ResultB :=
  if fam.children = [] then ⟨0, 0, 0, 0, 0⟩
  else
    let youngest := youngestAge fam.children
    let std_pf := ftbB_std_pf fam.children
    let es_pf := ftbB_energy_pf fam.children
    let base_pf :=
      if fam.partnered = false then
        if fam.primary_income ≤ RATES.ftbB_primary_limit then std_pf else 0
      else if 13 ≤ youngest then 0
      else ftbB_partnered_pf fam.primary_income fam.secondary_income std_pf
    let annual_core := pf_to_annual base_pf
    let energy_annual := if include_es = true ∧ 0 < base_pf then pf_to_annual es_pf else 0
    let supp := if 0 < base_pf then RATES.ftbB_supplement else 0
    { pf := round2 base_pf
      annual := annual_core
      supp := supp
      energy := energy_annual
      annual_total := round2 (annual_core + supp + energy_annual) }

/-- The per-age-band base-rate total of `find_ftb_a_cutoff` (src/app.py:2519-2524). -/
def cutoff_total_base_pf (child_ages : List ℕ) : ℚ :=
  (child_ages.map (fun a =>
    if a ≤ 12 then RATES.ftbA_base_pf_0_12 else RATES.ftbA_base_pf_13_plus)).sum

/-- `find_ftb_a_cutoff` from src/app.py:2514-2533. -/
def find_ftb_a_cutoff (child_ages : List ℕ) : CutoffA :=
  let total_base_pf := cutoff_total_base_pf child_ages
  let cutoff_income := RATES.ftbA_higher_ifa + total_base_pf * 26 / RATES.ftbA_taper2
  { supplement_cutoff := RATES.ftbA_supplement_income_limit
    taper_start := RATES.ftbA_higher_ifa
    zero_payment := round2 cutoff_income }

/-! ### Basic properties of the rounding function -/

theorem round2_zero : round2 0 = 0 := by
  simp [round2]

theorem round2_mono {a b : ℚ} (h : a ≤ b) : round2 a ≤ round2 b := by
  unfold round2
  have h1 : round (a * 100) ≤ round (b * 100) := by
    rw [round_eq, round_eq]
    exact Int.floor_le_floor (by linarith)
  have h2 : ((round (a * 100) : ℤ) : ℚ) ≤ ((round (b * 100) : ℤ) : ℚ) := Int.cast_le.mpr h1
  linarith

theorem le_round2 (q : ℚ) : q - 1 / 200 ≤ round2 q := by
  have h := abs_sub_round (q * 100)
  rw [abs_le] at h
  unfold round2
  have h2 : q * 100 - 1 / 2 ≤ ((round (q * 100) : ℤ) : ℚ) := by linarith [h.2]
  linarith

theorem round2_le (q : ℚ) : round2 q ≤ q + 1 / 200 := by
  have h := abs_sub_round (q * 100)
  rw [abs_le] at h
  unfold round2
  have h2 : ((round (q * 100) : ℤ) : ℚ) ≤ q * 100 + 1 / 2 := by linarith [h.1]
  linarith

theorem round2_eq_zero {q : ℚ} (h0 : 0 ≤ q) (h1 : q < 1 / 200) : round2 q = 0 := by
  unfold round2
  have hr : round (q * 100) = 0 := by
    rw [round_eq]
    exact Int.floor_eq_zero_iff.mpr (Set.mem_Ico.mpr ⟨by linarith, by linarith⟩)
  rw [hr]
  norm_num

theorem round2_intCast_add (k : ℤ) (q : ℚ) : round2 ((k : ℚ) + q) = k + round2 q := by
  unfold round2
  have h : ((k : ℚ) + q) * 100 = q * 100 + ((100 * k : ℤ) : ℚ) := by push_cast; ring
  rw [h, round_add_int]
  push_cast
  ring

theorem round2_eval (q : ℚ) : round2 q = ((⌊q * 100 + 1 / 2⌋ : ℤ) : ℚ) / 100 := by
  rw [round2, round_eq]

theorem round2_max (a b : ℚ) : round2 (max a b) = max (round2 a) (round2 b) := by
  rcases max_cases a b with ⟨he, hle⟩ | ⟨he, hlt⟩
  · rw [he, max_eq_left (round2_mono hle)]
  · rw [he, max_eq_right (round2_mono (le_of_lt hlt))]

/-! ### Per-child bounds -/

theorem child_penalties_nonneg (c : Child) : 0 ≤ child_penalties_pf c := by
  unfold child_penalties_pf RATES.compliance_penalty_pf
  split_ifs <;> norm_num

theorem child_base_le_capped (c : Child) : child_base_rate_pf c ≤ child_capped_max_pf c := by
  unfold child_capped_max_pf
  unfold child_base_rate_pf child_max_rate_pf
  unfold RATES.ftbA_base_pf_0_12 RATES.ftbA_base_pf_13_plus RATES.ftbA_max_pf_0_12
    RATES.ftbA_max_pf_13_15 RATES.ftbA_max_pf_16_19
  split_ifs <;> norm_num [le_min_iff]

theorem child_adj_base_nonneg (c : Child) : 0 ≤ child_adj_base_pf c :=
  le_max_right _ 0

theorem child_adj_max_nonneg (c : Child) : 0 ≤ child_adj_max_pf c :=
  le_max_right _ 0

theorem child_adj_base_le_adj_max (c : Child) : child_adj_base_pf c ≤ child_adj_max_pf c :=
  max_le_max (sub_le_sub_right (child_base_le_capped c) _) le_rfl

/-! ### Totals bounds -/

theorem ftbA_total_base_nonneg (l : List Child) : 0 ≤ ftbA_total_base_pf l := by
  unfold ftbA_total_base_pf
  refine List.sum_nonneg ?_
  intro x hx
  rw [List.mem_map] at hx
  obtain ⟨c, _, rfl⟩ := hx
  exact child_adj_base_nonneg c

theorem ftbA_total_base_le_total_max (l : List Child) :
    ftbA_total_base_pf l ≤ ftbA_total_max_pf l :=
  List.sum_le_sum fun c _ => child_adj_base_le_adj_max c

/-! ### Monotonicity of the two Part-A income-test methods -/

theorem ftbA_m1_core_anti (support : Bool) {tm tb a1 a2 : ℚ} (htb0 : 0 ≤ tb)
    (htb : tb ≤ tm) (h : a1 ≤ a2) :
    ftbA_m1_core support tm tb a2 ≤ ftbA_m1_core support tm tb a1 := by
  unfold ftbA_m1_core
  unfold RATES.ftbA_lower_ifa RATES.ftbA_higher_ifa RATES.ftbA_taper1 RATES.ftbA_taper2
  split_ifs <;>
    first
      | linarith
      | (apply max_le <;> linarith)
      | (exact max_le_max (by linarith) le_rfl)
      | (exact le_trans (max_le (by linarith) (by linarith)) (le_max_right _ _))

theorem ftbA_m2_core_anti (support : Bool) {bt a1 a2 : ℚ} (hbt : 0 ≤ bt) (h : a1 ≤ a2) :
    ftbA_m2_core support bt a2 ≤ ftbA_m2_core support bt a1 := by
  by_cases hs : support = true
  · simp [ftbA_m2_core, hs]
  · have hs' : support = false := by simpa using hs
    subst hs'
    unfold ftbA_m2_core
    unfold RATES.ftbA_higher_ifa RATES.ftbA_taper2
    simp only [Bool.false_eq_true, false_or]
    split_ifs <;>
      first
        | linarith
        | (apply max_le <;> linarith)
        | (exact max_le_max (by linarith) le_rfl)

/-! ### Monotonicity of the Part-B income tests -/

theorem ftbB_secondary_reduction_nonneg (s : ℚ) : 0 ≤ ftbB_secondary_reduction s := by
  unfold ftbB_secondary_reduction RATES.ftbB_secondary_free_area RATES.ftbB_taper
  split_ifs <;> linarith

theorem ftbB_secondary_reduction_mono {s1 s2 : ℚ} (h : s1 ≤ s2) :
    ftbB_secondary_reduction s1 ≤ ftbB_secondary_reduction s2 := by
  unfold ftbB_secondary_reduction RATES.ftbB_secondary_free_area RATES.ftbB_taper
  split_ifs <;> linarith

theorem ftbB_base_pf_nonneg (fam : Family) : 0 ≤ ftbB_base_pf fam := by
  unfold ftbB_base_pf
  split_ifs
  · exact le_refl 0
  · exact le_max_right _ 0

theorem ftbB_base_pf_anti_primary (pt s : Bool) (ch : List Child) {p1 p2 : ℚ} (si : ℚ)
    (h : p1 ≤ p2) :
    ftbB_base_pf ⟨pt, p2, si, ch, s⟩ ≤ ftbB_base_pf ⟨pt, p1, si, ch, s⟩ := by
  unfold ftbB_base_pf
  dsimp only
  split_ifs <;>
    first
      | exact le_refl _
      | linarith
      | exact le_max_right _ 0

theorem ftbB_base_pf_anti_secondary (pt s : Bool) (ch : List Child) (pi : ℚ) {s1 s2 : ℚ}
    (h : s1 ≤ s2) :
    ftbB_base_pf ⟨pt, pi, s2, ch, s⟩ ≤ ftbB_base_pf ⟨pt, pi, s1, ch, s⟩ := by
  unfold ftbB_base_pf
  dsimp only
  split_ifs <;>
    first
      | exact le_refl _
      | exact max_le_max (sub_le_sub_left (ftbB_secondary_reduction_mono h) _) le_rfl

theorem ftbA_m1_core_zero (support : Bool) (ati : ℚ) : ftbA_m1_core support 0 0 ati = 0 := by
  unfold ftbA_m1_core RATES.ftbA_lower_ifa RATES.ftbA_higher_ifa RATES.ftbA_taper1
    RATES.ftbA_taper2
  split_ifs <;> first | rfl | (exact max_eq_right (by linarith))

theorem ftbA_m2_core_zero (support : Bool) (ati : ℚ) : ftbA_m2_core support 0 ati = 0 := by
  unfold ftbA_m2_core RATES.ftbA_higher_ifa RATES.ftbA_taper2
  split_ifs with h1
  · rfl
  · push_neg at h1
    exact max_eq_right (by linarith [h1.2])

theorem calc_ftb_part_a_pf (fam : Family) :
    (calc_ftb_part_a fam).pf = round2 (ftbA_best_pf fam) := rfl

theorem calc_ftb_part_b_pf (fam : Family) (es : Bool) (h : fam.children ≠ []) :
    (calc_ftb_part_b fam es).pf = round2 (ftbB_base_pf fam) := by
  unfold calc_ftb_part_b
  rw [if_neg h]

/-! ### The claims -/

/-- C1: for every household with a fixed rate table and a non-empty children
list, the Part-A fortnightly rate returned by `calc_ftb_part_a` is the maximum
of the Method-1 and Method-2 rates: it is never below the (rounded) Method-1
rate and never below the (rounded) Method-2 rate. -/
theorem claim_C1_pf_is_max_of_methods (fam : Family) (_h : fam.children ≠ []) :
    (calc_ftb_part_a fam).pf = max (round2 (ftbA_m1_pf fam)) (round2 (ftbA_m2_pf fam)) ∧
    round2 (ftbA_m1_pf fam) ≤ (calc_ftb_part_a fam).pf ∧
    round2 (ftbA_m2_pf fam) ≤ (calc_ftb_part_a fam).pf := by
  have hpf : (calc_ftb_part_a fam).pf = max (round2 (ftbA_m1_pf fam)) (round2 (ftbA_m2_pf fam)) := by
    rw [calc_ftb_part_a_pf]
    unfold ftbA_best_pf
    exact round2_max _ _
  refine ⟨hpf, ?_, ?_⟩
  · rw [hpf]; exact le_max_left _ _
  · rw [hpf]; exact le_max_right _ _

theorem claim_C1_witness :
    ([(⟨5, true, true, true⟩ : Child)] ≠ ([] : List Child)) ∧
    ((calc_ftb_part_a ⟨false, 50000, 0, [⟨5, true, true, true⟩], false⟩).pf =
        max (round2 (ftbA_m1_pf ⟨false, 50000, 0, [⟨5, true, true, true⟩], false⟩))
          (round2 (ftbA_m2_pf ⟨false, 50000, 0, [⟨5, true, true, true⟩], false⟩)) ∧
      round2 (ftbA_m1_pf ⟨false, 50000, 0, [⟨5, true, true, true⟩], false⟩) ≤
        (calc_ftb_part_a ⟨false, 50000, 0, [⟨5, true, true, true⟩], false⟩).pf ∧
      round2 (ftbA_m2_pf ⟨false, 50000, 0, [⟨5, true, true, true⟩], false⟩) ≤
        (calc_ftb_part_a ⟨false, 50000, 0, [⟨5, true, true, true⟩], false⟩).pf) :=
  ⟨by decide, claim_C1_pf_is_max_of_methods _ (by decide)⟩

/-- C4: a child aged 4-5 who fails both the immunisation requirement and the
health-check requirement loses exactly two flat penalty increments
(`2 * compliance_penalty_pf`), subtracted from both the (maintenance-capped)
maximum rate and the base rate, each floored at zero. -/
theorem claim_C4_penalty_stacking (c : Child) (h4 : 4 ≤ c.age) (h5 : c.age ≤ 5)
    (hi : c.immunised = false) (hh : c.healthy_start = false) :
    child_penalties_pf c = 2 * RATES.compliance_penalty_pf ∧
    child_adj_max_pf c = max (child_capped_max_pf c - 2 * RATES.compliance_penalty_pf) 0 ∧
    child_adj_base_pf c = max (child_base_rate_pf c - 2 * RATES.compliance_penalty_pf) 0 := by
  have hp : child_penalties_pf c = 2 * RATES.compliance_penalty_pf := by
    unfold child_penalties_pf
    rw [if_pos hi, if_pos ⟨h4, h5, hh⟩]
    ring
  refine ⟨hp, ?_, ?_⟩
  · unfold child_adj_max_pf; rw [hp]
  · unfold child_adj_base_pf; rw [hp]

theorem claim_C4_witness :
    (4 ≤ (4 : ℕ) ∧ (4 : ℕ) ≤ 5) ∧
    (child_penalties_pf ⟨4, false, false, true⟩ = 2 * RATES.compliance_penalty_pf ∧
      child_adj_max_pf ⟨4, false, false, true⟩ =
        max (child_capped_max_pf ⟨4, false, false, true⟩ - 2 * RATES.compliance_penalty_pf) 0 ∧
      child_adj_base_pf ⟨4, false, false, true⟩ =
        max (child_base_rate_pf ⟨4, false, false, true⟩ - 2 * RATES.compliance_penalty_pf) 0) :=
  ⟨⟨by decide, by decide⟩,
    claim_C4_penalty_stacking ⟨4, false, false, true⟩ (by decide) (by decide) rfl rfl⟩

/-- C7: concrete scenario — single parent, primary income 50000, one child aged
5, all compliance flags true, not on income support: Method 1 gives 222.04,
Method 2 gives 71.26, and `calc_ftb_part_a` returns fortnightly rate 222.04,
supplement 916.15 and annual total 222.04 * 26 + 916.15 = 6689.19. -/
theorem claim_C7_concrete_scenario :
    ftbA_m1_pf ⟨false, 50000, 0, [⟨5, true, true, true⟩], false⟩ = 222.04 ∧
    ftbA_m2_pf ⟨false, 50000, 0, [⟨5, true, true, true⟩], false⟩ = 71.26 ∧
    calc_ftb_part_a ⟨false, 50000, 0, [⟨5, true, true, true⟩], false⟩ =
      { pf := 222.04, annual := 5773.04, supp := 916.15, annual_total := 6689.19 } := by
  norm_num [calc_ftb_part_a, ftbA_best_pf, ftbA_m1_pf, ftbA_m2_pf, ftbA_m1_core, ftbA_m2_core,
    ftbA_total_max_pf, ftbA_total_base_pf, child_adj_max_pf, child_adj_base_pf,
    child_capped_max_pf, child_max_rate_pf, child_base_rate_pf, child_penalties_pf,
    family_ati, pf_to_annual, round2_eval, Int.floor_eq_iff,
    RATES.ftbA_max_pf_0_12, RATES.ftbA_max_pf_13_15, RATES.ftbA_max_pf_16_19,
    RATES.ftbA_base_pf_0_12, RATES.ftbA_base_pf_13_plus, RATES.ftbA_supplement,
    RATES.ftbA_lower_ifa, RATES.ftbA_higher_ifa, RATES.ftbA_taper1, RATES.ftbA_taper2,
    RATES.ftbA_supplement_income_limit, RATES.compliance_penalty_pf]

/-- C8: with an empty children list, `calc_ftb_part_a` returns an all-zero
result and `calc_ftb_part_b` returns an all-zero result, for every combination
of incomes and flags. -/
theorem claim_C8_empty_children_zero (fam : Family) (h : fam.children = []) :
    calc_ftb_part_a fam = ⟨0, 0, 0, 0⟩ ∧
    ∀ es : Bool, calc_ftb_part_b fam es = ⟨0, 0, 0, 0, 0⟩ := by
  constructor
  · have htm : ftbA_total_max_pf fam.children = 0 := by rw [h]; rfl
    have htb : ftbA_total_base_pf fam.children = 0 := by rw [h]; rfl
    have hbest : ftbA_best_pf fam = 0 := by
      unfold ftbA_best_pf ftbA_m1_pf ftbA_m2_pf
      rw [htm, htb, ftbA_m1_core_zero, ftbA_m2_core_zero]
      exact max_self 0
    have hsupp : ¬(0 < (0 : ℚ) ∧ (fam.on_income_support = true ∨
        family_ati fam ≤ RATES.ftbA_supplement_income_limit)) := by
      rintro ⟨h0, -⟩
      exact lt_irrefl 0 h0
    unfold calc_ftb_part_a
    rw [hbest]
    dsimp only
    rw [if_neg hsupp]
    simp [pf_to_annual, round2_zero]
  · intro es
    unfold calc_ftb_part_b
    rw [if_pos h]

theorem claim_C8_witness :
    ((⟨true, 200000, 300, [], true⟩ : Family).children = []) ∧
    (calc_ftb_part_a ⟨true, 200000, 300, [], true⟩ = ⟨0, 0, 0, 0⟩ ∧
      ∀ es : Bool, calc_ftb_part_b ⟨true, 200000, 300, [], true⟩ es = ⟨0, 0, 0, 0, 0⟩) :=
  ⟨rfl, claim_C8_empty_children_zero ⟨true, 200000, 300, [], true⟩ rfl⟩

/-- C9: the output of `calc_ftb_part_b` (src/app.py:2475-2508) does not depend
on the `partnered` flag — two families that differ only in that flag get
identical results, so the secondary-earner taper and primary-earner ceiling
apply to single and partnered households alike. -/
theorem claim_C9_partnered_not_read (p q s es : Bool) (pi si : ℚ) (ch : List Child) :
    calc_ftb_part_b ⟨p, pi, si, ch, s⟩ es = calc_ftb_part_b ⟨q, pi, si, ch, s⟩ es := rfl

/-- C3: holding the children list and the flags fixed, the Part-A fortnightly
rate is non-increasing in the family adjusted taxable income, and the Part-B
fortnightly rate is non-increasing in the primary income and in the secondary
income separately. -/
theorem claim_C3_monotone (ch : List Child) (pt s es : Bool) (p1 s1 p2 s2 : ℚ) :
    (p1 + s1 ≤ p2 + s2 →
      (calc_ftb_part_a ⟨pt, p2, s2, ch, s⟩).pf ≤ (calc_ftb_part_a ⟨pt, p1, s1, ch, s⟩).pf) ∧
    (p1 ≤ p2 →
      (calc_ftb_part_b ⟨pt, p2, s1, ch, s⟩ es).pf ≤ (calc_ftb_part_b ⟨pt, p1, s1, ch, s⟩ es).pf) ∧
    (s1 ≤ s2 →
      (calc_ftb_part_b ⟨pt, p1, s2, ch, s⟩ es).pf ≤ (calc_ftb_part_b ⟨pt, p1, s1, ch, s⟩ es).pf) := by
  refine ⟨?_, ?_, ?_⟩
  · intro hle
    rw [calc_ftb_part_a_pf, calc_ftb_part_a_pf]
    apply round2_mono
    unfold ftbA_best_pf ftbA_m1_pf ftbA_m2_pf family_ati
    dsimp only
    exact max_le_max
      (ftbA_m1_core_anti s (ftbA_total_base_nonneg ch) (ftbA_total_base_le_total_max ch) hle)
      (ftbA_m2_core_anti s (ftbA_total_base_nonneg ch) hle)
  · intro hle
    by_cases hch : ch = []
    · subst hch
      simp [calc_ftb_part_b]
    · rw [calc_ftb_part_b_pf _ _ hch, calc_ftb_part_b_pf _ _ hch]
      exact round2_mono (ftbB_base_pf_anti_primary pt s ch s1 hle)
  · intro hle
    by_cases hch : ch = []
    · subst hch
      simp [calc_ftb_part_b]
    · rw [calc_ftb_part_b_pf _ _ hch, calc_ftb_part_b_pf _ _ hch]
      exact round2_mono (ftbB_base_pf_anti_secondary pt s ch p1 hle)

theorem claim_C3_witness :
    ((50000 : ℚ) + 0 ≤ 130000 + 0 ∧
      (calc_ftb_part_a ⟨false, 130000, 0, [⟨3, true, true, true⟩], false⟩).pf ≤
        (calc_ftb_part_a ⟨false, 50000, 0, [⟨3, true, true, true⟩], false⟩).pf) ∧
    ((50000 : ℚ) ≤ 130000 ∧
      (calc_ftb_part_b ⟨false, 130000, 0, [⟨3, true, true, true⟩], false⟩ false).pf ≤
        (calc_ftb_part_b ⟨false, 50000, 0, [⟨3, true, true, true⟩], false⟩ false).pf) ∧
    ((0 : ℚ) ≤ 20000 ∧
      (calc_ftb_part_b ⟨false, 50000, 20000, [⟨3, true, true, true⟩], false⟩ false).pf ≤
        (calc_ftb_part_b ⟨false, 50000, 0, [⟨3, true, true, true⟩], false⟩ false).pf) :=
  ⟨⟨by norm_num,
      (claim_C3_monotone [⟨3, true, true, true⟩] false false false 50000 0 130000 0).1
        (by norm_num)⟩,
    ⟨by norm_num,
      (claim_C3_monotone [⟨3, true, true, true⟩] false false false 50000 0 130000 0).2.1
        (by norm_num)⟩,
    ⟨by norm_num,
      (claim_C3_monotone [⟨3, true, true, true⟩] false false false 50000 0 130000 20000).2.2
        (by norm_num)⟩⟩

theorem child_penalties_pf_set_healthy (c : Child) (b : Bool) (hage : c.age < 4 ∨ 5 < c.age) :
    child_penalties_pf { c with healthy_start := b } = child_penalties_pf c := by
  unfold child_penalties_pf
  have h1 : ¬(4 ≤ ({ c with healthy_start := b } : Child).age ∧
      ({ c with healthy_start := b } : Child).age ≤ 5 ∧
      ({ c with healthy_start := b } : Child).healthy_start = false) := by
    rintro ⟨h4, h5, -⟩
    rcases hage with h | h <;> dsimp only at h4 h5 <;> omega
  have h2 : ¬(4 ≤ c.age ∧ c.age ≤ 5 ∧ c.healthy_start = false) := by
    rintro ⟨h4, h5, -⟩
    rcases hage with h | h <;> omega
  rw [if_neg h1, if_neg h2]

theorem child_adj_max_pf_set_healthy (c : Child) (b : Bool) (hage : c.age < 4 ∨ 5 < c.age) :
    child_adj_max_pf { c with healthy_start := b } = child_adj_max_pf c := by
  unfold child_adj_max_pf
  rw [child_penalties_pf_set_healthy c b hage]
  rfl

theorem child_adj_base_pf_set_healthy (c : Child) (b : Bool) (hage : c.age < 4 ∨ 5 < c.age) :
    child_adj_base_pf { c with healthy_start := b } = child_adj_base_pf c := by
  unfold child_adj_base_pf
  rw [child_penalties_pf_set_healthy c b hage]
  rfl

/-- C10: for a child whose age is outside 4-5, the `healthy_start` flag has no
effect on `calc_ftb_part_a` — two households differing only in that child's
flag get identical results, because the health-check penalty is applied only
when 4 <= age <= 5. -/
theorem claim_C10_healthy_start_inert_outside_4_5 (pt s : Bool) (pi si : ℚ)
    (pre post : List Child) (c : Child) (b1 b2 : Bool) (hage : c.age < 4 ∨ 5 < c.age) :
    calc_ftb_part_a ⟨pt, pi, si, pre ++ { c with healthy_start := b1 } :: post, s⟩ =
    calc_ftb_part_a ⟨pt, pi, si, pre ++ { c with healthy_start := b2 } :: post, s⟩ := by
  have hmax : ftbA_total_max_pf (pre ++ { c with healthy_start := b1 } :: post) =
      ftbA_total_max_pf (pre ++ { c with healthy_start := b2 } :: post) := by
    unfold ftbA_total_max_pf
    rw [List.map_append, List.map_append, List.map_cons, List.map_cons,
      child_adj_max_pf_set_healthy c b1 hage, child_adj_max_pf_set_healthy c b2 hage]
  have hbase : ftbA_total_base_pf (pre ++ { c with healthy_start := b1 } :: post) =
      ftbA_total_base_pf (pre ++ { c with healthy_start := b2 } :: post) := by
    unfold ftbA_total_base_pf
    rw [List.map_append, List.map_append, List.map_cons, List.map_cons,
      child_adj_base_pf_set_healthy c b1 hage, child_adj_base_pf_set_healthy c b2 hage]
  unfold calc_ftb_part_a ftbA_best_pf ftbA_m1_pf ftbA_m2_pf family_ati
  dsimp only
  rw [hmax, hbase]

theorem claim_C10_witness :
    ((7 : ℕ) < 4 ∨ 5 < (7 : ℕ)) ∧
    calc_ftb_part_a ⟨false, 40000, 0, [] ++ ({ (⟨7, true, true, true⟩ : Child) with
        healthy_start := true } : Child) :: [⟨2, true, true, true⟩], false⟩ =
      calc_ftb_part_a ⟨false, 40000, 0, [] ++ ({ (⟨7, true, true, true⟩ : Child) with
        healthy_start := false } : Child) :: [⟨2, true, true, true⟩], false⟩ :=
  ⟨by decide,
    claim_C10_healthy_start_inert_outside_4_5 false false 40000 0 [] [⟨2, true, true, true⟩]
      ⟨7, true, true, true⟩ true false (by decide)⟩

/-- C5 counterexample: with one child under 5 and secondary income 31339.76 the
taper leaves the unrounded Part-B rate at 0.008 — strictly between zero and one
cent — yet `calc_ftb_part_b` reports a fortnightly rate of 0.01 (not 0.00) and
still pays the 448.95 supplement, contradicting the claim that such an
entitlement is reported as exactly zero. -/
theorem claim_C5_counterexample :
    0 < ftbB_base_pf ⟨false, 0, 31339.76, [⟨0, true, true, true⟩], false⟩ ∧
    ftbB_base_pf ⟨false, 0, 31339.76, [⟨0, true, true, true⟩], false⟩ < 0.01 ∧
    (calc_ftb_part_b ⟨false, 0, 31339.76, [⟨0, true, true, true⟩], false⟩ false).pf = 0.01 ∧
    (calc_ftb_part_b ⟨false, 0, 31339.76, [⟨0, true, true, true⟩], false⟩ false).supp
      = 448.95 := by
  norm_num [calc_ftb_part_b, ftbB_base_pf, ftbB_std_pf, ftbB_secondary_reduction,
    ftbB_energy_pf, youngestAge, pf_to_annual, round2_eval, Int.floor_eq_iff,
    RATES.ftbB_max_pf_under_5, RATES.ftbB_max_pf_5_to_18, RATES.ftbB_secondary_free_area,
    RATES.ftbB_taper, RATES.ftbB_primary_limit, RATES.ftbB_supplement,
    RATES.ftbB_energy_pf_under_5, RATES.ftbB_energy_pf_5_to_18]

/-- C5 amended: when the Part-B taper leaves the fortnightly rate strictly
between zero and one cent, `calc_ftb_part_b` does not report an entitlement of
exactly zero: it reports the half-up rounding of the rate (0.00 below half a
cent, 0.01 at or above it) and still pays the full supplement. -/
theorem claim_C5_amended_subcent (fam : Family) (es : Bool) (h : fam.children ≠ [])
    (h0 : 0 < ftbB_base_pf fam) (_h1 : ftbB_base_pf fam < 0.01) :
    (calc_ftb_part_b fam es).pf = round2 (ftbB_base_pf fam) ∧
    (calc_ftb_part_b fam es).supp = RATES.ftbB_supplement := by
  refine ⟨calc_ftb_part_b_pf fam es h, ?_⟩
  unfold calc_ftb_part_b
  rw [if_neg h]
  dsimp only
  rw [if_pos h0]

theorem claim_C5_amended_witness :
    ((⟨false, 0, 31340.28, [⟨0, true, true, true⟩], false⟩ : Family).children ≠ [] ∧
      0 < ftbB_base_pf ⟨false, 0, 31340.28, [⟨0, true, true, true⟩], false⟩ ∧
      ftbB_base_pf ⟨false, 0, 31340.28, [⟨0, true, true, true⟩], false⟩ < 0.01) ∧
    ((calc_ftb_part_b ⟨false, 0, 31340.28, [⟨0, true, true, true⟩], false⟩ true).pf =
        round2 (ftbB_base_pf ⟨false, 0, 31340.28, [⟨0, true, true, true⟩], false⟩) ∧
      (calc_ftb_part_b ⟨false, 0, 31340.28, [⟨0, true, true, true⟩], false⟩ true).supp =
        RATES.ftbB_supplement) :=
  ⟨⟨by decide,
      by norm_num [ftbB_base_pf, ftbB_std_pf, ftbB_secondary_reduction, youngestAge,
        RATES.ftbB_max_pf_under_5, RATES.ftbB_secondary_free_area, RATES.ftbB_taper,
        RATES.ftbB_primary_limit],
      by norm_num [ftbB_base_pf, ftbB_std_pf, ftbB_secondary_reduction, youngestAge,
        RATES.ftbB_max_pf_under_5, RATES.ftbB_secondary_free_area, RATES.ftbB_taper,
        RATES.ftbB_primary_limit]⟩,
    claim_C5_amended_subcent _ true (by decide)
      (by norm_num [ftbB_base_pf, ftbB_std_pf, ftbB_secondary_reduction, youngestAge,
        RATES.ftbB_max_pf_under_5, RATES.ftbB_secondary_free_area, RATES.ftbB_taper,
        RATES.ftbB_primary_limit])
      (by norm_num [ftbB_base_pf, ftbB_std_pf, ftbB_secondary_reduction, youngestAge,
        RATES.ftbB_max_pf_under_5, RATES.ftbB_secondary_free_area, RATES.ftbB_taper,
        RATES.ftbB_primary_limit])⟩

/-- C2: in the partnered-aware `calc_ftb_part_b` variant (src/app.py:3120-3137,
tail modelled from spec §4.3), a partnered household whose youngest child is 13
or older gets an all-zero Part-B result regardless of both incomes, while with
youngest child aged 12 the fortnightly rate is exactly the primary-ceiling /
secondary-taper formula on the 5-to-18 standard rate — in particular the full
131.74 when the higher income is within the ceiling and the lower income is
within the secondary free area. -/
theorem claim_C2_partnered_age_gate (fam : Family) (es : Bool)
    (hp : fam.partnered = true) (hc : fam.children ≠ []) :
    (13 ≤ youngestAge fam.children →
      calc_ftb_part_b_v3120 fam es = ⟨0, 0, 0, 0, 0⟩) ∧
    (youngestAge fam.children = 12 →
      (calc_ftb_part_b_v3120 fam es).pf =
        round2 (ftbB_partnered_pf fam.primary_income fam.secondary_income
          RATES.ftbB_max_pf_5_to_18) ∧
      (max fam.primary_income fam.secondary_income ≤ RATES.ftbB_primary_limit →
        min fam.primary_income fam.secondary_income ≤ RATES.ftbB_secondary_free_area →
        (calc_ftb_part_b_v3120 fam es).pf = RATES.ftbB_max_pf_5_to_18)) := by
  constructor
  · intro h13
    simp [calc_ftb_part_b_v3120, hc, hp, h13, pf_to_annual, round2_zero]
  · intro h12
    have hpf : (calc_ftb_part_b_v3120 fam es).pf =
        round2 (ftbB_partnered_pf fam.primary_income fam.secondary_income
          RATES.ftbB_max_pf_5_to_18) := by
      simp [calc_ftb_part_b_v3120, hc, hp, h12, ftbB_std_pf]
    refine ⟨hpf, ?_⟩
    intro hpl hsec
    rw [hpf]
    have hpp : ftbB_partnered_pf fam.primary_income fam.secondary_income
        RATES.ftbB_max_pf_5_to_18 = RATES.ftbB_max_pf_5_to_18 := by
      unfold ftbB_partnered_pf
      dsimp only
      rw [if_neg (not_lt.mpr hpl), if_pos hsec, sub_zero,
        max_eq_left (by norm_num [RATES.ftbB_max_pf_5_to_18]),
        if_neg (by norm_num [RATES.ftbB_max_pf_5_to_18])]
    rw [hpp]
    norm_num [round2_eval, Int.floor_eq_iff, RATES.ftbB_max_pf_5_to_18]

theorem claim_C2_witness :
    ((⟨true, 200000, 1000, [⟨13, true, true, true⟩], false⟩ : Family).partnered = true ∧
      (⟨true, 200000, 1000, [⟨13, true, true, true⟩], false⟩ : Family).children ≠ [] ∧
      13 ≤ youngestAge (⟨true, 200000, 1000, [⟨13, true, true, true⟩], false⟩ :
        Family).children) ∧
    calc_ftb_part_b_v3120 ⟨true, 200000, 1000, [⟨13, true, true, true⟩], false⟩ false =
      ⟨0, 0, 0, 0, 0⟩ :=
  ⟨⟨rfl, by decide, by decide⟩,
    (claim_C2_partnered_age_gate ⟨true, 200000, 1000, [⟨13, true, true, true⟩], false⟩ false
      rfl (by decide)).1 (by decide)⟩

theorem sum_map_const_rat (l : List ℕ) (c : ℚ) : (l.map (fun _ => c)).sum = l.length * c := by
  induction l with
  | nil => simp
  | cons a t ih =>
    simp only [List.map_cons, List.sum_cons, ih, List.length_cons]
    push_cast
    ring

theorem child_adj_base_pf_default (a : ℕ) :
    child_adj_base_pf ⟨a, true, true, true⟩ = RATES.ftbA_base_pf_0_12 := by
  unfold child_adj_base_pf child_base_rate_pf child_penalties_pf
  norm_num [RATES.ftbA_base_pf_0_12, RATES.ftbA_base_pf_13_plus]

theorem ftbA_total_base_default (ages : List ℕ) :
    ftbA_total_base_pf (ages.map fun a => ⟨a, true, true, true⟩) =
      ages.length * RATES.ftbA_base_pf_0_12 := by
  unfold ftbA_total_base_pf
  rw [List.map_map]
  have h : ages.map (child_adj_base_pf ∘ fun a => (⟨a, true, true, true⟩ : Child)) =
      ages.map (fun _ => RATES.ftbA_base_pf_0_12) := by
    apply List.map_congr_left
    intro a _
    exact child_adj_base_pf_default a
  rw [h, sum_map_const_rat]

theorem cutoff_total_base_const (ages : List ℕ) :
    cutoff_total_base_pf ages = ages.length * RATES.ftbA_base_pf_0_12 := by
  unfold cutoff_total_base_pf
  have h : ages.map (fun a =>
      if a ≤ 12 then RATES.ftbA_base_pf_0_12 else RATES.ftbA_base_pf_13_plus) =
      ages.map (fun _ => RATES.ftbA_base_pf_0_12) := by
    apply List.map_congr_left
    intro a _
    split_ifs
    · rfl
    · norm_num [RATES.ftbA_base_pf_0_12, RATES.ftbA_base_pf_13_plus]
  rw [h, sum_map_const_rat]

/-- C6: for every children-age list (all compliance flags true, not on income
support), feeding the `zero_payment` income reported by `find_ftb_a_cutoff`
back into `calc_ftb_part_a` as the family income yields a Part-A fortnightly
rate of exactly 0.00. -/
theorem claim_C6_cutoff_roundtrip (ages : List ℕ) :
    (calc_ftb_part_a
      ⟨false, (find_ftb_a_cutoff ages).zero_payment, 0,
        ages.map (fun a => ⟨a, true, true, true⟩), false⟩).pf = 0 := by
  rcases ages with _ | ⟨a0, rest⟩
  · norm_num [calc_ftb_part_a, find_ftb_a_cutoff, cutoff_total_base_pf, ftbA_best_pf,
      ftbA_m1_pf, ftbA_m2_pf, ftbA_m1_core, ftbA_m2_core, ftbA_total_max_pf,
      ftbA_total_base_pf, family_ati, pf_to_annual, round2_eval, Int.floor_eq_iff,
      RATES.ftbA_lower_ifa, RATES.ftbA_higher_ifa, RATES.ftbA_taper1, RATES.ftbA_taper2]
  · set n : ℚ := ((a0 :: rest).length : ℚ) with hn
    have hlen : (1 : ℚ) ≤ n := by
      rw [hn]
      exact_mod_cast Nat.succ_le_succ (Nat.zero_le rest.length)
    set ch : List Child := (a0 :: rest).map (fun a => ⟨a, true, true, true⟩) with hch
    have htb : ftbA_total_base_pf ch = n * (7126 / 100) := by
      rw [hch, ftbA_total_base_default]
      norm_num [RATES.ftbA_base_pf_0_12, hn]
    set X : ℚ := n * (7126 / 100) * 26 / (3 / 10) with hX
    have hzp : (find_ftb_a_cutoff (a0 :: rest)).zero_payment = 115997 + round2 X := by
      unfold find_ftb_a_cutoff
      dsimp only
      rw [cutoff_total_base_const]
      have he : RATES.ftbA_higher_ifa +
          ((a0 :: rest).length : ℚ) * RATES.ftbA_base_pf_0_12 * 26 / RATES.ftbA_taper2 =
          ((115997 : ℤ) : ℚ) + X := by
        rw [hX, hn]
        norm_num [RATES.ftbA_higher_ifa, RATES.ftbA_base_pf_0_12, RATES.ftbA_taper2]
      rw [he, round2_intCast_add]
      norm_num
    set r : ℚ := round2 X with hr
    have hrlb : X - 1 / 200 ≤ r := le_round2 X
    have hXlb : 6175 ≤ X := by
      rw [hX]
      nlinarith [hlen]
    set fam : Family :=
      ⟨false, (find_ftb_a_cutoff (a0 :: rest)).zero_payment, 0, ch, false⟩ with hfam
    have hsupport : fam.on_income_support = false := rfl
    have hati : family_ati fam = 115997 + r := by
      rw [hfam]
      unfold family_ati
      dsimp only
      rw [hzp, add_zero]
    have htbf : ftbA_total_base_pf fam.children = n * (7126 / 100) := htb
    have hm1 : ftbA_m1_pf fam = max (n * (7126 / 100) - r * (3 / 10) / 26) 0 := by
      unfold ftbA_m1_pf ftbA_m1_core
      rw [hsupport, hati, htbf]
      rw [if_neg (by norm_num), if_neg (by norm_num [RATES.ftbA_lower_ifa]; linarith),
        if_neg (by norm_num [RATES.ftbA_higher_ifa]; linarith)]
      have h1 : RATES.ftbA_higher_ifa = (115997 : ℚ) := rfl
      have h2 : RATES.ftbA_taper2 = (3 / 10 : ℚ) := by norm_num [RATES.ftbA_taper2]
      rw [h1, h2, add_sub_cancel_left]
    have hm2 : ftbA_m2_pf fam = max (n * (7126 / 100) - r * (3 / 10) / 26) 0 := by
      unfold ftbA_m2_pf ftbA_m2_core
      rw [hsupport, hati, htbf]
      rw [if_neg (not_or.mpr ⟨by norm_num, by norm_num [RATES.ftbA_higher_ifa]; linarith⟩)]
      have h1 : RATES.ftbA_higher_ifa = (115997 : ℚ) := rfl
      have h2 : RATES.ftbA_taper2 = (3 / 10 : ℚ) := by norm_num [RATES.ftbA_taper2]
      rw [h1, h2, add_sub_cancel_left]
    have hkey : n * (7126 / 100) - r * (3 / 10) / 26 ≤ 3 / 52000 := by
      have hXeq : X * (3 / 10) / 26 = n * (7126 / 100) := by
        rw [hX]
        ring
      linarith [hrlb]
    rw [calc_ftb_part_a_pf]
    have hbest : ftbA_best_pf fam = max (n * (7126 / 100) - r * (3 / 10) / 26) 0 := by
      unfold ftbA_best_pf
      rw [hm1, hm2, max_self]
    rw [hbest]
    exact round2_eq_zero (le_max_right _ 0)
      (lt_of_le_of_lt (max_le hkey (by norm_num)) (by norm_num))

end FTB
